import Mathlib

/-!
Shallow embedding of the `server.js` backend (job postings, user
registration/login, a sequential reference-number generator and an
hourly-gated visitor counter, backed by a document store).

Conventions:
* A Mongo collection is a Lean list of documents (`findOne` reads the head,
  `save` of a fresh document appends, `save` of a fetched document updates it
  in place).
* Timestamps are `Int` milliseconds since the epoch, matching the JavaScript
  `Date.getTime()` arithmetic in the source.
* `bcrypt.hash` / `bcrypt.compare` are opaque parameters of the credential
  routes: the routes never inspect the hash beyond calling `compare`.
-/

set_option maxRecDepth 10000

namespace Backend

/-! ### Reference-number generator (`getNextReferenceNumber`, `POST /api/reference`) -/

/-- JavaScript `String.prototype.padStart(n, c)`: left-pad to length `n`
with `c`; a string already of length `≥ n` is returned unchanged
(padding never truncates). -/
def padStart (s : String) (n : Nat) (c : Char) : String :=
  ⟨List.replicate (n - s.length) c ++ s.data⟩

/-- The read-increment-save core of `getNextReferenceNumber`: `findOne` on the
`Reference` collection; if absent, a new document with `count = 1` is saved,
otherwise the found document's `count` is incremented and saved.  Returns the
resulting count and the new collection state. -/
def nextRefCount : List Nat → Nat × List Nat
  | [] => (1, [1])
  | c :: rest => (c + 1, (c + 1) :: rest)

/-- The formatting step of `getNextReferenceNumber`:
`` `${String(count).padStart(3, "0")}/${currentMonth}/${currentYear}` `` where
`currentMonth` is the `"2-digit"` month (values 1..12 rendered with a leading
zero) and `currentYear` the four-digit year. -/
def formatRef (count month year : Nat) : String :=
  padStart (Nat.repr count) 3 '0' ++ "/" ++ padStart (Nat.repr month) 2 '0' ++ "/" ++
    Nat.repr year

/-- Function `getNextReferenceNumber` from `server.js`: increments (or creates) the
singleton `Reference` document and formats the reference string.  The current
month and year are explicit parameters standing for `new Date()`. -/
def getNextReferenceNumber (refs : List Nat) (month year : Nat) : String × List Nat :=
  (formatRef (nextRefCount refs).1 month year, (nextRefCount refs).2)

/-- Runs `n` successive reference-number requests, tracking only the collection. -/
def runRefs : Nat → List Nat → List Nat
  | 0, refs => refs
  | n + 1, refs => runRefs n (nextRefCount refs).2

/-- Decidable rendering of the regular expression `\d{3}/\d{2}/\d{4}`
(anchored: exactly three digits, a slash, two digits, a slash, four digits). -/
def matchesRefPattern (s : String) : Bool :=
  match s.data with
  | [d1, d2, d3, s1, m1, m2, s2, y1, y2, y3, y4] =>
    d1.isDigit && d2.isDigit && d3.isDigit && (s1 == '/') && m1.isDigit && m2.isDigit &&
      (s2 == '/') && y1.isDigit && y2.isDigit && y3.isDigit && y4.isDigit
  | _ => false

/-! ### Visitor counter (`GET /api/visitorCount`) -/

/-- A document of the `Visitor` collection. -/
structure VisitorRec where
  count : Int
  lastUpdated : Int
deriving DecidableEq, Repr

/-- The `GET /api/visitorCount` handler from `server.js`: fetch the singleton
`Visitor` document (create it with `count = 905`, `lastUpdated = now` if
absent); if `now - lastUpdated ≥ 3600000` milliseconds, increment the count
and reset `lastUpdated`, saving the change; always respond with the current
count.  Returns the response body value and the stored state. -/
def visitorCountHandler (st : Option VisitorRec) (now : Int) : Int × Option VisitorRec :=
  let v : VisitorRec :=
    match st with
    | none => { count := 905, lastUpdated := now }
    | some w => w
  if 3600000 ≤ now - v.lastUpdated then
    (v.count + 1, some { count := v.count + 1, lastUpdated := now })
  else
    (v.count, some v)

/-! ### Jobs (`POST/GET/PUT/DELETE /api/jobs`) -/

/-- A stored `Job` document.  `title`, `description`, `location`, `icon` have
no default and may be absent; `datePosted` defaults to the creation time so it
is always present. -/
structure Job where
  title : Option String
  description : Option String
  location : Option String
  datePosted : Int
  icon : Option String
deriving DecidableEq, Repr

/-- A client request body for job routes: any subset of the fields. -/
structure JobPayload where
  title : Option String
  description : Option String
  location : Option String
  datePosted : Option Int
  icon : Option String
deriving DecidableEq, Repr

/-- Mongo `$set` semantics for one optional field: a field present in the
payload overwrites, an absent one leaves the stored value. -/
def setField {α : Type} : Option α → Option α → Option α
  | some v, _ => some v
  | none, old => old

/-- Creation via `new Job(req.body)`: the client payload taken as-is, with `datePosted`
defaulting to `Date.now()` when not supplied. -/
def createJob (p : JobPayload) (now : Int) : Job :=
  { title := p.title
    description := p.description
    location := p.location
    datePosted := match p.datePosted with | some d => d | none => now
    icon := p.icon }

/-- The update applied by `findByIdAndUpdate(id, req.body)`: payload fields
overwrite, all others are kept. -/
def applyUpdate (j : Job) (p : JobPayload) : Job :=
  { title := setField p.title j.title
    description := setField p.description j.description
    location := setField p.location j.location
    datePosted := match p.datePosted with | some d => d | none => j.datePosted
    icon := setField p.icon j.icon }

/-- Store call `Job.findByIdAndUpdate(id, body, \x7b new: true \x7d)`: update the document
matching the identifier (identifiers are unique, so at most the first match)
and return the updated document, or `null` when no document matches. -/
def findByIdAndUpdate : List (Nat × Job) → Nat → JobPayload → Option Job × List (Nat × Job)
  | [], _, _ => (none, [])
  | (i, j) :: rest, jid, p =>
    if i = jid then (some (applyUpdate j p), (i, applyUpdate j p) :: rest)
    else
      let r := findByIdAndUpdate rest jid p
      (r.1, (i, j) :: r.2)

/-- Store call `Job.findByIdAndDelete(id)`: remove the matching document (if any) and
return it, or `null` when no document matches. -/
def findByIdAndDelete : List (Nat × Job) → Nat → Option Job × List (Nat × Job)
  | [], _ => (none, [])
  | (i, j) :: rest, jid =>
    if i = jid then (some j, rest)
    else
      let r := findByIdAndDelete rest jid
      (r.1, (i, j) :: r.2)

/-- Route `POST /api/jobs`: save `new Job(req.body)` and answer 201 with the saved
document.  The store assigns the fresh identifier `fid`. -/
def postJob (db : List (Nat × Job)) (fid : Nat) (p : JobPayload) (now : Int) :
    Nat × Job × List (Nat × Job) :=
  (201, createJob p now, db ++ [(fid, createJob p now)])

/-- Route `GET /api/jobs`: `Job.find()` returns every stored document. -/
def getJobs (db : List (Nat × Job)) : List (Nat × Job) :=
  db

/-- Route `PUT /api/jobs/:id`: `res.json(updatedJob)` — status 200 with the updated
document, which is `null` when the identifier matches nothing. -/
def putJob (db : List (Nat × Job)) (jid : Nat) (p : JobPayload) :
    Nat × Option Job × List (Nat × Job) :=
  (200, (findByIdAndUpdate db jid p).1, (findByIdAndUpdate db jid p).2)

/-- Route `DELETE /api/jobs/:id`: delete, then answer 200 with
`{ message: "Job deleted" }` whether or not anything matched. -/
def deleteJob (db : List (Nat × Job)) (jid : Nat) : Nat × String × List (Nat × Job) :=
  (200, "Job deleted", (findByIdAndDelete db jid).2)

/-! ### Users (`POST /api/register`, `POST /api/login`) -/

/-- A stored `User` document: `username` (unique index) and the bcrypt hash
stored in the `password` field. -/
structure UserRec where
  username : String
  password : String
deriving DecidableEq, Repr

/-- Route `POST /api/register`: hash the password and save the new user.  The unique
index on `username` makes `save` reject a duplicate username; the route's
`catch` turns that into status 500 with the generic message.  Success answers
201.  Returns status, message and the resulting collection. -/
def registerUser (hash : String → String) (db : List UserRec) (username password : String) :
    Nat × String × List UserRec :=
  if db.any fun u => u.username == username then
    (500, "Error registering user", db)
  else
    (201, "User registered successfully",
      db ++ [{ username := username, password := hash password }])

/-- Route `POST /api/login`: look up by username; answer 400 with
`"Invalid username or password"` when absent or when `bcrypt.compare` rejects;
on success answer 200 with the message and `user: { username }` only.
Returns status, message and the optional echoed username. -/
def login (compare : String → String → Bool) (db : List UserRec) (username password : String) :
    Nat × String × Option String :=
  match db.find? fun u => u.username == username with
  | none => (400, "Invalid username or password", none)
  | some u =>
    if compare password u.password then
      (200, "Login successful", some u.username)
    else
      (400, "Invalid username or password", none)

/-! ### Helper lemmas: decimal rendering, padding, iteration -/

lemma string_ext {s t : String} (h : s.data = t.data) : s = t := by
  cases s
  cases t
  exact congrArg String.mk h

lemma digitChar_isDigit {m : Nat} (h : m < 10) : (Nat.digitChar m).isDigit := by
  interval_cases m <;> decide

lemma toDigitsCore_digits (fuel : Nat) :
    ∀ (n : Nat) (ds : List Char), (∀ c ∈ ds, c.isDigit) →
      ∀ c ∈ Nat.toDigitsCore 10 fuel n ds, c.isDigit := by
  induction fuel with
  | zero =>
    intro n ds hds c hc
    simp only [Nat.toDigitsCore] at hc
    exact hds c hc
  | succ f ih =>
    intro n ds hds c hc
    simp only [Nat.toDigitsCore] at hc
    by_cases h0 : n / 10 = 0
    · rw [if_pos h0] at hc
      rcases List.mem_cons.mp hc with h | h
      · subst h
        exact digitChar_isDigit (Nat.mod_lt n (by norm_num))
      · exact hds c h
    · rw [if_neg h0] at hc
      refine ih (n / 10) (Nat.digitChar (n % 10) :: ds) ?_ c hc
      intro d hd
      rcases List.mem_cons.mp hd with h | h
      · subst h
        exact digitChar_isDigit (Nat.mod_lt n (by norm_num))
      · exact hds d h

lemma repr_data_digits (n : Nat) : ∀ c ∈ (Nat.repr n).data, c.isDigit := by
  intro c hc
  exact toDigitsCore_digits (n + 1) n [] (by intro d hd; cases hd) c hc

lemma toDigitsCore_length_ge (f : Nat) :
    ∀ (n e : Nat), 10 ^ e ≤ n → e < f → e + 1 ≤ (Nat.toDigitsCore 10 f n []).length := by
  induction f with
  | zero =>
    intro n e _ h
    omega
  | succ f ih =>
    intro n e hge hef
    simp only [Nat.toDigitsCore]
    by_cases h0 : n / 10 = 0
    · rw [if_pos h0]
      have hn : n < 10 := by omega
      have he : e = 0 := by
        by_contra hne
        have h1 : (1 : Nat) ≤ e := Nat.one_le_iff_ne_zero.mpr hne
        have h10 : (10 : Nat) ^ 1 ≤ 10 ^ e := Nat.pow_le_pow_right (by norm_num) h1
        simp only [pow_one] at h10
        omega
      subst he
      simp
    · rw [if_neg h0]
      rw [Nat.toDigitsCore_lens_eq]
      cases e with
      | zero => omega
      | succ e =>
        have hdiv : 10 ^ e ≤ n / 10 := by
          rw [Nat.le_div_iff_mul_le (by norm_num)]
          calc 10 ^ e * 10 = 10 ^ (e + 1) := by ring
          _ ≤ n := hge
        have := ih (n / 10) e hdiv (by omega)
        omega

lemma repr_length_ge (n e : Nat) (h : 10 ^ e ≤ n) : e + 1 ≤ (Nat.repr n).length := by
  have hpow : e < 10 ^ e := Nat.lt_pow_self (by norm_num) e
  have hen : e < n + 1 := by omega
  have hrepr : (Nat.repr n).length = (Nat.toDigitsCore 10 (n + 1) n []).length := rfl
  rw [hrepr]
  exact toDigitsCore_length_ge (n + 1) n e h hen

lemma padStart_length (s : String) (n : Nat) (c : Char) (h : s.length ≤ n) :
    (padStart s n c).length = n := by
  have h1 : (padStart s n c).length = (n - s.length) + s.data.length := by
    show (List.replicate (n - s.length) c ++ s.data).length = (n - s.length) + s.data.length
    simp
  have h2 : s.length = s.data.length := rfl
  omega

lemma padStart_digits (s : String) (n : Nat) (h : ∀ c ∈ s.data, c.isDigit) :
    ∀ c ∈ (padStart s n '0').data, c.isDigit := by
  intro c hc
  have hc2 : c ∈ List.replicate (n - s.length) '0' ++ s.data := hc
  rcases List.mem_append.mp hc2 with h1 | h1
  · have := List.eq_of_mem_replicate h1
    subst this
    decide
  · exact h c h1

lemma formatRef_data (c m y : Nat) :
    (formatRef c m y).data =
      (padStart (Nat.repr c) 3 '0').data ++ '/' ::
        ((padStart (Nat.repr m) 2 '0').data ++ '/' :: (Nat.repr y).data) := by
  have hslash : ("/" : String).data = ['/'] := rfl
  simp [formatRef, String.data_append, hslash]

lemma runRefs_cons (n : Nat) : ∀ (c : Nat) (rest : List Nat),
    runRefs n (c :: rest) = (c + n) :: rest := by
  induction n with
  | zero =>
    intro c rest
    simp [runRefs]
  | succ k ih =>
    intro c rest
    have hstep : runRefs (k + 1) (c :: rest) = runRefs k ((c + 1) :: rest) := rfl
    rw [hstep, ih]
    congr 1
    omega

/-! ### Claim theorems -/

/-- Claim C1: over any sequence of successful reference-generator calls the
count portion increases by exactly 1 per call, starting from 1 on an empty
collection; from a fresh state the first two requests produce
`"001/<MM>/<YYYY>"` then `"002/<MM>/<YYYY>"` for the current month and year. -/
theorem C1_reference_sequence (refs : List Nat) (m y n : Nat) :
    (nextRefCount []).1 = 1 ∧
    (nextRefCount (nextRefCount refs).2).1 = (nextRefCount refs).1 + 1 ∧
    runRefs (n + 1) [] = [n + 1] ∧
    (getNextReferenceNumber [] m y).1 =
      "001/" ++ padStart (Nat.repr m) 2 '0' ++ "/" ++ Nat.repr y ∧
    (getNextReferenceNumber (getNextReferenceNumber [] m y).2 m y).1 =
      "002/" ++ padStart (Nat.repr m) 2 '0' ++ "/" ++ Nat.repr y := by
  refine ⟨rfl, ?_, ?_, ?_, ?_⟩
  · cases refs <;> rfl
  · have hstep : runRefs (n + 1) [] = runRefs n [1] := rfl
    rw [hstep, runRefs_cons]
    congr 1
    omega
  · show formatRef 1 m y = _
    unfold formatRef
    have h1 : padStart (Nat.repr 1) 3 '0' ++ "/" = "001/" := by decide
    rw [h1]
  · show formatRef 2 m y = _
    unfold formatRef
    have h2 : padStart (Nat.repr 2) 3 '0' ++ "/" = "002/" := by decide
    rw [h2]

/-- Claim C7: each reference-generator operation leaves the collection a
singleton whose count is at least 1 and equal to the value just returned; an
existing document is incremented by exactly 1 (count non-decreasing, never
deleted), an absent one is created with count 1; after the first use from a
fresh store exactly one document exists. -/
theorem C7_reference_counter_invariants (refs : List Nat) (n : Nat) :
    1 ≤ (nextRefCount refs).1 ∧
    (nextRefCount refs).2.head? = some (nextRefCount refs).1 ∧
    (nextRefCount refs).2.length = max refs.length 1 ∧
    (∀ c rest, refs = c :: rest → nextRefCount refs = (c + 1, (c + 1) :: rest)) ∧
    (runRefs (n + 1) []).length = 1 := by
  refine ⟨?_, ?_, ?_, ?_, ?_⟩
  · cases refs <;> simp [nextRefCount]
  · cases refs <;> rfl
  · cases refs <;> simp [nextRefCount]
  · intro c rest h
    subst h
    rfl
  · have hstep : runRefs (n + 1) [] = runRefs n [1] := rfl
    rw [hstep, runRefs_cons]
    rfl

/-- Claim C7 witness: a concrete run of the invariant theorem at count 7. -/
theorem C7_reference_counter_invariants_witness : nextRefCount [7] = (8, [8]) :=
  (C7_reference_counter_invariants [7] 0).2.2.2.1 7 [] rfl

lemma matchesRefPattern_parts {l1 l2 l3 : List Char}
    (h1 : l1.length = 3) (h2 : l2.length = 2) (h3 : l3.length = 4)
    (hd1 : ∀ c ∈ l1, c.isDigit) (hd2 : ∀ c ∈ l2, c.isDigit)
    (hd3 : ∀ c ∈ l3, c.isDigit) :
    matchesRefPattern ⟨l1 ++ '/' :: (l2 ++ '/' :: l3)⟩ = true := by
  rcases List.length_eq_three.mp h1 with ⟨c1, c2, c3, rfl⟩
  rcases List.length_eq_two.mp h2 with ⟨m1, m2, rfl⟩
  obtain ⟨y1, t, rfl, ht⟩ : ∃ y1 t, l3 = y1 :: t ∧ t.length = 3 := by
    rcases l3 with _ | ⟨y1, t⟩
    · simp at h3
    · exact ⟨y1, t, rfl, by simpa using h3⟩
  rcases List.length_eq_three.mp ht with ⟨y2, y3, y4, rfl⟩
  simp [matchesRefPattern, hd1 c1 (by simp), hd1 c2 (by simp), hd1 c3 (by simp),
    hd2 m1 (by simp), hd2 m2 (by simp), hd3 y1 (by simp), hd3 y2 (by simp),
    hd3 y3 (by simp), hd3 y4 (by simp)]

/-- Claim C5 counterexample: the 1000th successful generation (counter
currently at 999, October 2026) returns `"1000/10/2026"`, whose count portion
has four digits, so the string does not match `\d{3}/\d{2}/\d{4}`:
`padStart` pads but never truncates. -/
theorem C5_reference_format_counterexample :
    (getNextReferenceNumber [999] 10 2026).1 = "1000/10/2026" ∧
    matchesRefPattern (getNextReferenceNumber [999] 10 2026).1 = false := by
  constructor <;> decide

/-- Claim C5 (amended): a successful generation matches `\d{3}/\d{2}/\d{4}`
provided the resulting count is at most 999 (the count field is zero-padded to
at least three digits and grows beyond three above 999), the month is 1..12
and the year has four digits. -/
theorem C5_reference_format (refs : List Nat) (m y : Nat)
    (hc : (nextRefCount refs).1 ≤ 999) (hm : m ≤ 12)
    (hy1 : 1000 ≤ y) (hy2 : y ≤ 9999) :
    matchesRefPattern (getNextReferenceNumber refs m y).1 = true := by
  have hsd : (getNextReferenceNumber refs m y).1 = formatRef (nextRefCount refs).1 m y := rfl
  rw [hsd]
  have hstr : formatRef (nextRefCount refs).1 m y =
      ⟨(padStart (Nat.repr (nextRefCount refs).1) 3 '0').data ++ '/' ::
        ((padStart (Nat.repr m) 2 '0').data ++ '/' :: (Nat.repr y).data)⟩ :=
    string_ext (formatRef_data (nextRefCount refs).1 m y)
  rw [hstr]
  apply matchesRefPattern_parts
  · have hlen : (Nat.repr (nextRefCount refs).1).length ≤ 3 :=
      Nat.repr_length _ 3 (by norm_num) (by omega)
    exact padStart_length (Nat.repr (nextRefCount refs).1) 3 '0' hlen
  · have hlen : (Nat.repr m).length ≤ 2 :=
      Nat.repr_length m 2 (by norm_num) (by omega)
    exact padStart_length (Nat.repr m) 2 '0' hlen
  · have hup : (Nat.repr y).length ≤ 4 := Nat.repr_length y 4 (by norm_num) (by omega)
    have hlo : 3 + 1 ≤ (Nat.repr y).length := repr_length_ge y 3 (by omega)
    have hdata : (Nat.repr y).data.length = (Nat.repr y).length := rfl
    omega
  · exact padStart_digits (Nat.repr (nextRefCount refs).1) 3 (repr_data_digits _)
  · exact padStart_digits (Nat.repr m) 2 (repr_data_digits m)
  · exact repr_data_digits y

/-- Claim C5 witness: the amended format theorem at counter 41, October 2026. -/
theorem C5_reference_format_witness :
    (nextRefCount [41]).1 ≤ 999 ∧
    matchesRefPattern (getNextReferenceNumber [41] 10 2026).1 = true :=
  ⟨by decide, C5_reference_format [41] 10 2026 (by decide) (by decide) (by decide) (by decide)⟩

lemma visitorCountHandler_returns_count (st : Option VisitorRec) (now : Int) :
    ∃ v, visitorCountHandler st now = (v.count, some v) := by
  rcases st with _ | v
  · simp only [visitorCountHandler]
    split
    · exact ⟨{ count := 905 + 1, lastUpdated := now }, rfl⟩
    · exact ⟨{ count := 905, lastUpdated := now }, rfl⟩
  · simp only [visitorCountHandler]
    split
    · exact ⟨{ count := v.count + 1, lastUpdated := now }, rfl⟩
    · exact ⟨v, rfl⟩

/-- Claim C2: the visitor-count handler creates the singleton with
`count = 905`, `lastUpdated = now` when absent (and then returns 905 without
incrementing, since zero time has elapsed); when at least 3600 seconds have
passed since `lastUpdated` it increments the count and resets `lastUpdated`,
otherwise it leaves the state unchanged; in every case the returned value is
the current stored count. -/
theorem C2_visitor_contract (st : Option VisitorRec) (now : Int) :
    (st = none →
      visitorCountHandler st now = (905, some { count := 905, lastUpdated := now })) ∧
    (∀ v, st = some v → 3600000 ≤ now - v.lastUpdated →
      visitorCountHandler st now =
        (v.count + 1, some { count := v.count + 1, lastUpdated := now })) ∧
    (∀ v, st = some v → now - v.lastUpdated < 3600000 →
      visitorCountHandler st now = (v.count, some v)) ∧
    (∀ v2, (visitorCountHandler st now).2 = some v2 →
      (visitorCountHandler st now).1 = v2.count) := by
  refine ⟨?_, ?_, ?_, ?_⟩
  · intro h
    subst h
    simp [visitorCountHandler]
  · intro v h hge
    subst h
    simp [visitorCountHandler, if_pos hge]
  · intro v h hlt
    subst h
    simp [visitorCountHandler, if_neg (by omega : ¬ 3600000 ≤ now - v.lastUpdated)]
  · intro v2 h2
    obtain ⟨v, hv⟩ := visitorCountHandler_returns_count st now
    rw [hv] at h2 ⊢
    simp only [Option.some.injEq] at h2
    simp [h2]

/-- Claim C2 witness: the contract at a fresh store and at a stale and a
recent record. -/
theorem C2_visitor_contract_witness :
    visitorCountHandler none 0 = (905, some { count := 905, lastUpdated := 0 }) ∧
    visitorCountHandler (some { count := 905, lastUpdated := 0 }) 3600000 =
      (906, some { count := 906, lastUpdated := 3600000 }) ∧
    visitorCountHandler (some { count := 905, lastUpdated := 0 }) 3599999 =
      (905, some { count := 905, lastUpdated := 0 }) :=
  ⟨(C2_visitor_contract none 0).1 rfl,
   (C2_visitor_contract (some { count := 905, lastUpdated := 0 }) 3600000).2.1
     { count := 905, lastUpdated := 0 } rfl (by decide),
   (C2_visitor_contract (some { count := 905, lastUpdated := 0 }) 3599999).2.2.1
     { count := 905, lastUpdated := 0 } rfl (by decide)⟩

/-- Claim C6 counterexample: from the shared state
`{ count := 905, lastUpdated := 0 }`, reads at t = 3599999 ms and
t = 3600001 ms are 2 ms (far less than one hour) apart, yet return 905 and
then 906: the pair straddles the hourly boundary, so the first read does not
increment and the second does. -/
theorem C6_visitor_reads_counterexample :
    ((3600001 : Int) - 3599999 < 3600000) ∧
    (visitorCountHandler (some { count := 905, lastUpdated := 0 }) 3599999).1 = 905 ∧
    (visitorCountHandler
      (visitorCountHandler (some { count := 905, lastUpdated := 0 }) 3599999).2
      3600001).1 = 906 := by
  refine ⟨by decide, by decide, by decide⟩

/-- Claim C6 (amended): for two reads at `t1 ≤ t2` from a shared state whose
`lastUpdated` is not in the future, the returned counts are equal exactly when
the second read falls less than one hour after the `lastUpdated` left by the
first read, and differ by exactly 1 otherwise; in particular reads at least
one hour apart differ by exactly 1, and reads less than one hour apart differ
by at most 1 (equal unless they straddle the hourly boundary). -/
theorem C6_visitor_reads (st : Option VisitorRec) (t1 t2 : Int)
    (h12 : t1 ≤ t2) (hlu : ∀ v, st = some v → v.lastUpdated ≤ t1) :
    (∀ v1, (visitorCountHandler st t1).2 = some v1 →
      ((t2 - v1.lastUpdated < 3600000 →
        (visitorCountHandler (visitorCountHandler st t1).2 t2).1 =
          (visitorCountHandler st t1).1) ∧
       (3600000 ≤ t2 - v1.lastUpdated →
        (visitorCountHandler (visitorCountHandler st t1).2 t2).1 =
          (visitorCountHandler st t1).1 + 1))) ∧
    (3600000 ≤ t2 - t1 →
      (visitorCountHandler (visitorCountHandler st t1).2 t2).1 =
        (visitorCountHandler st t1).1 + 1) ∧
    (t2 - t1 < 3600000 →
      (visitorCountHandler (visitorCountHandler st t1).2 t2).1 =
          (visitorCountHandler st t1).1 ∨
      (visitorCountHandler (visitorCountHandler st t1).2 t2).1 =
          (visitorCountHandler st t1).1 + 1) := by
  rcases st with _ | v
  · simp only [visitorCountHandler]
    split <;> split <;> simp_all <;> omega
  · have hv := hlu v rfl
    simp only [visitorCountHandler]
    split <;> split <;> simp_all <;> omega

/-- Claim C6 witness: the amended theorem at the state
`{ count := 905, lastUpdated := 0 }` with reads one hour apart. -/
theorem C6_visitor_reads_witness :
    (visitorCountHandler
      (visitorCountHandler (some { count := 905, lastUpdated := 0 }) 3600000).2
      7200000).1 =
    (visitorCountHandler (some { count := 905, lastUpdated := 0 }) 3600000).1 + 1 :=
  (C6_visitor_reads (some { count := 905, lastUpdated := 0 }) 3600000 7200000
      (by decide)
      (by intro v hv; injection hv with hv; rw [← hv]; decide)).2.1
    (by decide)

lemma registerUser_dup (hash : String → String) (db : List UserRec) (u p : String)
    (h : (db.any fun w => w.username == u) = true) :
    registerUser hash db u p = (500, "Error registering user", db) := by
  unfold registerUser
  rw [if_pos h]

lemma registerUser_new (hash : String → String) (db : List UserRec) (u p : String)
    (h : (db.any fun w => w.username == u) = false) :
    registerUser hash db u p =
      (201, "User registered successfully", db ++ [{ username := u, password := hash p }]) := by
  unfold registerUser
  rw [if_neg]
  simp [h]

/-- Claim C3 counterexample: registering `"alice"` twice on a fresh store
fails the second time, but the route surfaces the duplicate-key save error
through its `catch` as HTTP 500, not 400. -/
theorem C3_register_duplicate_counterexample :
    (registerUser (fun p => p) ((registerUser (fun p => p) [] "alice" "pw").2.2)
      "alice" "pw").1 = 500 ∧
    (registerUser (fun p => p) ((registerUser (fun p => p) [] "alice" "pw").2.2)
      "alice" "pw").1 ≠ 400 := by
  refine ⟨by decide, by decide⟩

/-- Claim C3 (amended): registering a username that already exists fails on
the second registration, surfaced as HTTP 500 with the generic message
`"Error registering user"`, and the store is left unchanged.  (The route's
`catch` maps the unique-index save failure to 500, not 400.) -/
theorem C3_register_duplicate (hash : String → String) (db : List UserRec)
    (u p1 p2 : String) :
    (registerUser hash ((registerUser hash db u p1).2.2) u p2).1 = 500 ∧
    (registerUser hash ((registerUser hash db u p1).2.2) u p2).2.1 =
      "Error registering user" ∧
    (registerUser hash ((registerUser hash db u p1).2.2) u p2).2.2 =
      (registerUser hash db u p1).2.2 := by
  by_cases hdup : (db.any fun w => w.username == u) = true
  · rw [registerUser_dup hash db u p1 hdup, registerUser_dup hash db u p2 hdup]
    exact ⟨rfl, rfl, rfl⟩
  · have hfalse : (db.any fun w => w.username == u) = false := by
      rw [Bool.not_eq_true] at hdup
      exact hdup
    rw [registerUser_new hash db u p1 hfalse]
    have hmem : ((db ++ [{ username := u, password := hash p1 }] : List UserRec).any
        fun w => w.username == u) = true := by
      simp [List.any_append]
    rw [registerUser_dup hash _ u p2 hmem]
    exact ⟨rfl, rfl, rfl⟩

/-- Claim C4: a login against an unknown username and a login against a
registered username with a rejected password produce literally the same
response — status 400, error `"Invalid username or password"`, no user data —
so the two failure causes are indistinguishable; a login whose password the
comparator accepts answers 200 with the message and exactly the username
(no token or session field exists in the response). -/
theorem C4_login_indistinguishable (compare : String → String → Bool)
    (db1 db2 db : List UserRec) (u1 p1 u2 p2 u p : String) :
    ((db1.find? fun w => w.username == u1) = none →
      login compare db1 u1 p1 = (400, "Invalid username or password", none)) ∧
    (∀ r, (db2.find? fun w => w.username == u2) = some r →
      compare p2 r.password = false →
      login compare db2 u2 p2 = (400, "Invalid username or password", none)) ∧
    ((db1.find? fun w => w.username == u1) = none →
      (∀ r, (db2.find? fun w => w.username == u2) = some r →
        compare p2 r.password = false →
        login compare db1 u1 p1 = login compare db2 u2 p2)) ∧
    (∀ r, (db.find? fun w => w.username == u) = some r →
      compare p r.password = true →
      login compare db u p = (200, "Login successful", some u)) := by
  refine ⟨?_, ?_, ?_, ?_⟩
  · intro h
    simp [login, h]
  · intro r hr hcmp
    simp [login, hr, hcmp]
  · intro h1 r hr hcmp
    simp [login, h1, hr, hcmp]
  · intro r hr hcmp
    have hname := List.find?_some hr
    have hru : r.username = u := eq_of_beq hname
    simp [login, hr, hcmp, hru]

/-- Claim C4 witness: concrete stores — unknown user `"eve"` on an empty
store versus `"bob"` with a wrong password — yield the same 400 response, and
the correct password logs `"bob"` in. -/
theorem C4_login_indistinguishable_witness :
    login (fun a b => a == b) [] "eve" "x" =
      login (fun a b => a == b) [{ username := "bob", password := "secret" }] "bob" "wrong" ∧
    login (fun a b => a == b) [{ username := "bob", password := "secret" }] "bob" "secret" =
      (200, "Login successful", some "bob") :=
  ⟨(C4_login_indistinguishable (fun a b => a == b)
      [] [{ username := "bob", password := "secret" }]
      [{ username := "bob", password := "secret" }]
      "eve" "x" "bob" "wrong" "bob" "secret").2.2.1 (by decide)
      { username := "bob", password := "secret" } (by decide) (by decide),
   (C4_login_indistinguishable (fun a b => a == b)
      [] [{ username := "bob", password := "secret" }]
      [{ username := "bob", password := "secret" }]
      "eve" "x" "bob" "wrong" "bob" "secret").2.2.2
      { username := "bob", password := "secret" } (by decide) (by decide)⟩

lemma findByIdAndUpdate_not_found (db : List (Nat × Job)) (jid : Nat) (p : JobPayload)
    (h : ∀ pr ∈ db, pr.1 ≠ jid) :
    findByIdAndUpdate db jid p = (none, db) := by
  induction db with
  | nil => rfl
  | cons hd tl ih =>
    obtain ⟨i, j⟩ := hd
    have hne : i ≠ jid := h (i, j) (by simp)
    simp only [findByIdAndUpdate]
    rw [if_neg hne, ih fun pr hpr => h pr (by simp [hpr])]

lemma findByIdAndUpdate_found (db1 db2 : List (Nat × Job)) (jid : Nat) (j : Job)
    (p : JobPayload) (h : ∀ pr ∈ db1, pr.1 ≠ jid) :
    findByIdAndUpdate (db1 ++ (jid, j) :: db2) jid p =
      (some (applyUpdate j p), db1 ++ (jid, applyUpdate j p) :: db2) := by
  induction db1 with
  | nil =>
    simp only [List.nil_append, findByIdAndUpdate]
    simp
  | cons hd tl ih =>
    obtain ⟨i, j0⟩ := hd
    have hne : i ≠ jid := h (i, j0) (by simp)
    simp only [List.cons_append, findByIdAndUpdate, List.append_eq]
    rw [if_neg hne, ih fun pr hpr => h pr (by simp [hpr])]

lemma findByIdAndDelete_not_found (db : List (Nat × Job)) (jid : Nat)
    (h : ∀ pr ∈ db, pr.1 ≠ jid) :
    findByIdAndDelete db jid = (none, db) := by
  induction db with
  | nil => rfl
  | cons hd tl ih =>
    obtain ⟨i, j⟩ := hd
    have hne : i ≠ jid := h (i, j) (by simp)
    simp only [findByIdAndDelete]
    rw [if_neg hne, ih fun pr hpr => h pr (by simp [hpr])]

lemma findByIdAndDelete_found (db1 db2 : List (Nat × Job)) (jid : Nat) (j : Job)
    (h : ∀ pr ∈ db1, pr.1 ≠ jid) :
    findByIdAndDelete (db1 ++ (jid, j) :: db2) jid = (some j, db1 ++ db2) := by
  induction db1 with
  | nil =>
    simp only [List.nil_append, findByIdAndDelete]
    simp
  | cons hd tl ih =>
    obtain ⟨i, j0⟩ := hd
    have hne : i ≠ jid := h (i, j0) (by simp)
    simp only [List.cons_append, findByIdAndDelete, List.append_eq]
    rw [if_neg hne, ih fun pr hpr => h pr (by simp [hpr])]

/-- Claim C8: updating a job by identifier with a partial payload answers 200
with the updated document; only fields present in the payload change (absent
payload fields keep the stored value, present ones take the payload value),
and every other stored record — before or after the matched one — is
unchanged. -/
theorem C8_update_frame (db1 db2 : List (Nat × Job)) (jid : Nat) (j : Job)
    (p : JobPayload) (h : ∀ pr ∈ db1, pr.1 ≠ jid) :
    putJob (db1 ++ (jid, j) :: db2) jid p =
      (200, some (applyUpdate j p), db1 ++ (jid, applyUpdate j p) :: db2) ∧
    (p.title = none → (applyUpdate j p).title = j.title) ∧
    (p.description = none → (applyUpdate j p).description = j.description) ∧
    (p.location = none → (applyUpdate j p).location = j.location) ∧
    (p.datePosted = none → (applyUpdate j p).datePosted = j.datePosted) ∧
    (p.icon = none → (applyUpdate j p).icon = j.icon) ∧
    (∀ t, p.title = some t → (applyUpdate j p).title = some t) ∧
    (∀ t, p.description = some t → (applyUpdate j p).description = some t) ∧
    (∀ t, p.location = some t → (applyUpdate j p).location = some t) ∧
    (∀ d, p.datePosted = some d → (applyUpdate j p).datePosted = d) ∧
    (∀ t, p.icon = some t → (applyUpdate j p).icon = some t) := by
  refine ⟨?_, ?_, ?_, ?_, ?_, ?_, ?_, ?_, ?_, ?_, ?_⟩
  · simp only [putJob]
    rw [findByIdAndUpdate_found db1 db2 jid j p h]
  all_goals
    first
    | intro ht
      simp [applyUpdate, setField, ht]
    | intro t ht
      simp [applyUpdate, setField, ht]

/-- Claim C8 witness: the frame theorem at a two-record store, updating record
2 with a payload carrying only a title. -/
theorem C8_update_frame_witness :
    putJob ([(1, { title := some "a", description := none, location := none, datePosted := 0, icon := none })] ++ (2, { title := some "b", description := some "d", location := none, datePosted := 5, icon := none }) :: []) 2 { title := some "c", description := none, location := none, datePosted := none, icon := none } =
      (200, some (applyUpdate { title := some "b", description := some "d", location := none, datePosted := 5, icon := none } { title := some "c", description := none, location := none, datePosted := none, icon := none }), [(1, { title := some "a", description := none, location := none, datePosted := 0, icon := none })] ++ (2, applyUpdate { title := some "b", description := some "d", location := none, datePosted := 5, icon := none } { title := some "c", description := none, location := none, datePosted := none, icon := none }) :: []) :=
  (C8_update_frame [(1, { title := some "a", description := none, location := none, datePosted := 0, icon := none })] [] 2 { title := some "b", description := some "d", location := none, datePosted := 5, icon := none } { title := some "c", description := none, location := none, datePosted := none, icon := none } (by decide)).1

/-- Claim C9: creating a job answers 201 and a subsequent listing contains the
created record, whose `datePosted` is the payload's value when supplied and
the creation time otherwise; deleting that job by its identifier restores the
prior store, and no subsequent listing contains a record under that
identifier. -/
theorem C9_job_lifecycle (db : List (Nat × Job)) (fid : Nat) (p : JobPayload)
    (now : Int) (h : ∀ pr ∈ db, pr.1 ≠ fid) :
    (postJob db fid p now).1 = 201 ∧
    (fid, createJob p now) ∈ getJobs (postJob db fid p now).2.2 ∧
    (p.datePosted = none → (createJob p now).datePosted = now) ∧
    (∀ d, p.datePosted = some d → (createJob p now).datePosted = d) ∧
    deleteJob (postJob db fid p now).2.2 fid = (200, "Job deleted", db) ∧
    (∀ j2, (fid, j2) ∉ getJobs (deleteJob (postJob db fid p now).2.2 fid).2.2) := by
  have hdel : deleteJob (postJob db fid p now).2.2 fid = (200, "Job deleted", db) := by
    simp only [postJob, deleteJob]
    rw [findByIdAndDelete_found db [] fid (createJob p now) h]
    simp
  refine ⟨rfl, ?_, ?_, ?_, hdel, ?_⟩
  · simp [postJob, getJobs]
  · intro hd
    simp [createJob, hd]
  · intro d hd
    simp [createJob, hd]
  · intro j2 hmem
    rw [hdel] at hmem
    exact h (fid, j2) hmem rfl

/-- Claim C9 witness: the lifecycle theorem for a dateless payload inserted
into a one-record store under the fresh identifier 2. -/
theorem C9_job_lifecycle_witness :
    (postJob [(1, { title := some "a", description := none, location := none, datePosted := 0, icon := none })] 2 { title := some "b", description := none, location := none, datePosted := none, icon := none } 7).1 = 201 ∧
    (createJob { title := some "b", description := none, location := none, datePosted := none, icon := none } 7).datePosted = 7 :=
  ⟨(C9_job_lifecycle [(1, { title := some "a", description := none, location := none, datePosted := 0, icon := none })] 2 { title := some "b", description := none, location := none, datePosted := none, icon := none } 7 (by decide)).1,
   (C9_job_lifecycle [(1, { title := some "a", description := none, location := none, datePosted := 0, icon := none })] 2 { title := some "b", description := none, location := none, datePosted := none, icon := none } 7 (by decide)).2.2.1 rfl⟩

/-- Claim C10: a PUT to an identifier matching no stored job answers 200 with
a null body and modifies nothing, and a DELETE on such an identifier answers
200 with the success message and modifies nothing: `findByIdAndUpdate` /
`findByIdAndDelete` return `null` rather than throwing, so neither route's
error path runs. -/
theorem C10_missing_identifier (db : List (Nat × Job)) (jid : Nat) (p : JobPayload)
    (h : ∀ pr ∈ db, pr.1 ≠ jid) :
    putJob db jid p = (200, none, db) ∧
    deleteJob db jid = (200, "Job deleted", db) := by
  constructor
  · simp only [putJob]
    rw [findByIdAndUpdate_not_found db jid p h]
  · simp only [deleteJob]
    rw [findByIdAndDelete_not_found db jid h]

/-- Claim C10 witness: PUT and DELETE on identifier 9, absent from a
one-record store. -/
theorem C10_missing_identifier_witness :
    putJob [(1, { title := some "a", description := none, location := none, datePosted := 0, icon := none })] 9 { title := some "c", description := none, location := none, datePosted := none, icon := none } = (200, none, [(1, { title := some "a", description := none, location := none, datePosted := 0, icon := none })]) ∧
    deleteJob [(1, { title := some "a", description := none, location := none, datePosted := 0, icon := none })] 9 = (200, "Job deleted", [(1, { title := some "a", description := none, location := none, datePosted := 0, icon := none })]) :=
  C10_missing_identifier [(1, { title := some "a", description := none, location := none, datePosted := 0, icon := none })] 9 { title := some "c", description := none, location := none, datePosted := none, icon := none } (by decide)

end Backend
